import Mathlib

/-!
Shallow embedding of the benchmark-result data model of the
disk_perf_test_tool repository: `wally/result_classes.py` and
`wally/config.py`, together with the statistical-reduction and
serialization contracts described by the specification.

Python floats are modelled as rationals (`ℚ`), with a separate sample
type for the non-finite IEEE values where they matter.  Python objects
whose methods manipulate `self.__dict__` (the `StatProps` family) are
modelled directly as ordered attribute dictionaries; a raised exception
is modelled by `Option`/`Except` failure.
-/

namespace DiskPerf

/-- Python attribute and mapping values occurring in the `StatProps`
classes: `None`, floats, ints, `numpy.array` of numbers, plain `list`
of numbers, `NormaltestResult` named tuples and plain
`(statistic, pvalue)` tuples. -/
inductive AVal where
  | noneV : AVal
  | num : ℚ → AVal
  | int : Nat → AVal
  | arr : List ℚ → AVal
  | plist : List ℚ → AVal
  | ntres : ℚ → ℚ → AVal
  | pair : ℚ → ℚ → AVal
  deriving DecidableEq, Repr

/-- A Python object's `__dict__` or a serialized mapping: key-value
pairs in insertion order. -/
abbrev RawDict := List (String × AVal)

/-- `d[k]` lookup; `none` models a raised `KeyError`. -/
def dictGet : RawDict → String → Option AVal
  | [], _ => none
  | (k, v) :: rest, key => if k = key then some v else dictGet rest key

/-- `d[k] = v`: replace the value at an existing key, else append. -/
def dictSet : RawDict → String → AVal → RawDict
  | [], key, v => [(key, v)]
  | (k, w) :: rest, key, v =>
      if k = key then (k, v) :: rest else (k, w) :: dictSet rest key v

/-- `StatProps.__init__(data)` (result_classes.py lines 137-149): every
statistic attribute is set to `None`; only the data array is stored. -/
def mkStatProps (data : List ℚ) : RawDict :=
  [("perc_99", AVal.noneV), ("perc_95", AVal.noneV), ("perc_90", AVal.noneV),
   ("perc_50", AVal.noneV), ("min", AVal.noneV), ("max", AVal.noneV),
   ("bins_populations", AVal.noneV), ("bins_mids", AVal.noneV),
   ("data", AVal.arr data)]

/-- `NormStatProps.__init__(data)` (lines 184-193): the base init, then
the seven normal-distribution attributes, all set to `None`. -/
def mkNormStatProps (data : List ℚ) : RawDict :=
  mkStatProps data ++
  [("average", AVal.noneV), ("deviation", AVal.noneV),
   ("confidence", AVal.noneV), ("confidence_level", AVal.noneV),
   ("normtest", AVal.noneV), ("skew", AVal.noneV), ("kurt", AVal.noneV)]

/-- `HistoStatProps.__init__(data, second_axis_size)` (lines 177-179):
stores `second_axis_size`, then runs the base init. -/
def mkHistoStatProps (data : List ℚ) (second_axis_size : Nat) : RawDict :=
  ("second_axis_size", AVal.int second_axis_size) :: mkStatProps data

/-- Modelled from the spec: `Storable.raw` (`wally/common_types.py` is
not among the sources).  Per the ignore-list policy (spec sections 6
and 9) it serializes every attribute whose name is not in the class's
`__ignore_fields__` list. -/
def storableRaw (ignore : List String) (obj : RawDict) : RawDict :=
  obj.filter (fun kv => !(ignore.contains kv.1))

/-- Modelled from the spec: `Storable.fromraw` (not among the sources)
rebuilds an object whose attributes are exactly the mapping's entries. -/
def storableFromraw (d : RawDict) : RawDict := d

/-- Python `list(x)` as applied to the bin attributes: succeeds on
arrays and lists, raises `TypeError` (modelled `none`) otherwise. -/
def pyList : AVal → Option AVal
  | AVal.arr l => some (AVal.plist l)
  | AVal.plist l => some (AVal.plist l)
  | _ => none

/-- `numpy.array(x)` on a sequence value. -/
def pyArray : AVal → Option AVal
  | AVal.plist l => some (AVal.arr l)
  | AVal.arr l => some (AVal.arr l)
  | _ => none

/-- `StatProps.raw` (lines 161-165): serialize all attributes except
`data` (`__ignore_fields__ = ["data"]`), then coerce the two bin
arrays to plain lists.  `none` models a raised exception. -/
def StatProps.raw (obj : RawDict) : Option RawDict := do
  let d := storableRaw ["data"] obj
  let bm ← dictGet d "bins_mids"
  let bm2 ← pyList bm
  let d := dictSet d "bins_mids" bm2
  let bp ← dictGet d "bins_populations"
  let bp2 ← pyList bp
  return dictSet d "bins_populations" bp2

/-- `StatProps.fromraw` (lines 167-171): coerce the two bin lists back
to numeric arrays, then let `Storable.fromraw` rebuild the object. -/
def StatProps.fromraw (d : RawDict) : Option RawDict := do
  let bm ← dictGet d "bins_mids"
  let bm2 ← pyArray bm
  let d := dictSet d "bins_mids" bm2
  let bp ← dictGet d "bins_populations"
  let bp2 ← pyArray bp
  return storableFromraw (dictSet d "bins_populations" bp2)

/-- `.statistic` attribute access on a value; only a `NormaltestResult`
has it (`AttributeError` otherwise, modelled `none`). -/
def ntStatistic : AVal → Option ℚ
  | AVal.ntres s _ => some s
  | _ => none

/-- `.pvalue` attribute access on a value. -/
def ntPvalue : AVal → Option ℚ
  | AVal.ntres _ p => some p
  | _ => none

/-- `NormStatProps.raw` (lines 208-211), translated verbatim: it
assigns `data["normtest"]` from the `.statistic` and `.pvalue` fields
of `data["nortest"]` - note the key being read.  `none` models a
raised exception. -/
def NormStatProps.raw (obj : RawDict) : Option RawDict := do
  let d ← StatProps.raw obj
  let nt ← dictGet d "nortest"
  let s ← ntStatistic nt
  let p ← ntPvalue nt
  return dictSet d "normtest" (AVal.pair s p)

/-- `NormStatProps.fromraw` (lines 213-216): rebuild the
`NormaltestResult` from the persisted two-element value, then run the
base `fromraw`. -/
def NormStatProps.fromraw (d : RawDict) : Option RawDict := do
  let nt ← dictGet d "normtest"
  match nt with
  | AVal.pair s p => StatProps.fromraw (dictSet d "normtest" (AVal.ntres s p))
  | _ => none

/-- The attribute state of a fully populated `NormStatProps`: the
statistics have been computed and assigned over the `__init__` state. -/
def populatedNorm (p50 p90 p95 p99 mn mx : ℚ) (mids pops : List ℚ)
    (avg dev conf clev sk ku nts ntp : ℚ) (data : List ℚ) : RawDict :=
  [("perc_99", AVal.num p99), ("perc_95", AVal.num p95),
   ("perc_90", AVal.num p90), ("perc_50", AVal.num p50),
   ("min", AVal.num mn), ("max", AVal.num mx),
   ("bins_populations", AVal.arr pops), ("bins_mids", AVal.arr mids),
   ("data", AVal.arr data),
   ("average", AVal.num avg), ("deviation", AVal.num dev),
   ("confidence", AVal.num conf), ("confidence_level", AVal.num clev),
   ("normtest", AVal.ntres nts ntp), ("skew", AVal.num sk),
   ("kurt", AVal.num ku)]

/-- The attribute state of a fully populated base `StatProps`. -/
def populatedStat (p50 p90 p95 p99 mn mx : ℚ) (mids pops : List ℚ)
    (data : List ℚ) : RawDict :=
  [("perc_99", AVal.num p99), ("perc_95", AVal.num p95),
   ("perc_90", AVal.num p90), ("perc_50", AVal.num p50),
   ("min", AVal.num mn), ("max", AVal.num mx),
   ("bins_populations", AVal.arr pops), ("bins_mids", AVal.arr mids),
   ("data", AVal.arr data)]

/-- A remote node (`IRPCNode`): only its `node_id` is consumed by
`SuiteConfig`. -/
structure Node where
  node_id : String
  deriving DecidableEq, Repr

/-- The attribute state of a `SuiteConfig` (result_classes.py
lines 29-42). -/
structure SuiteConfig where
  test_type : String
  params : List (String × String)
  run_uuid : String
  nodes : List Node
  nodes_ids : List String
  remote_dir : String
  storage_id : String
  deriving DecidableEq, Repr

/-- `SuiteConfig.__init__`: stores the inputs and derives `nodes_ids`
from the nodes and `storage_id` from `test_type` and `idx`. -/
def mkSuiteConfig (test_type : String) (params : List (String × String))
    (run_uuid : String) (nodes : List Node) (remote_dir : String)
    (idx : Nat) : SuiteConfig :=
  { test_type := test_type
    params := params
    run_uuid := run_uuid
    nodes := nodes
    nodes_ids := nodes.map Node.node_id
    remote_dir := remote_dir
    storage_id := test_type ++ "_" ++ toString idx }

/-- Python `dict` equality on an association-list representation:
every entry of each mapping is found with the same value in the
other. -/
def pdictEq (a b : List (String × String)) : Bool :=
  a.all (fun kv => b.lookup kv.1 == some kv.2) &&
  b.all (fun kv => a.lookup kv.1 == some kv.2)

/-- Python `set(xs) == set(ys)` on lists of strings. -/
def setEq (a b : List String) : Bool :=
  a.all (fun x => b.contains x) && b.all (fun x => a.contains x)

/-- `SuiteConfig.__eq__` (lines 44-52): compares `test_type`, `params`
(Python dict equality) and the sets of `nodes_ids`; the other
attributes are not consulted.  (The `type(o) is not self.__class__`
guard is vacuous here, both arguments being `SuiteConfig`.) -/
def SuiteConfig.eq (c o : SuiteConfig) : Bool :=
  c.test_type == o.test_type && pdictEq c.params o.params &&
  setEq c.nodes_ids o.nodes_ids

/-- The serialized values appearing in a `SuiteConfig` attribute
dict. -/
inductive PyVal where
  | str : String → PyVal
  | strList : List String → PyVal
  | dict : List (String × String) → PyVal
  | nodeList : List Node → PyVal
  deriving DecidableEq, Repr

/-- The attribute dict of a `SuiteConfig`, in initialization order. -/
def SuiteConfig.fields (c : SuiteConfig) : List (String × PyVal) :=
  [("test_type", PyVal.str c.test_type), ("params", PyVal.dict c.params),
   ("run_uuid", PyVal.str c.run_uuid), ("nodes", PyVal.nodeList c.nodes),
   ("nodes_ids", PyVal.strList c.nodes_ids),
   ("remote_dir", PyVal.str c.remote_dir),
   ("storage_id", PyVal.str c.storage_id)]

/-- Modelled from the spec: `Storable.raw` on a `SuiteConfig` (the
`Storable` base is not among the sources) keeps every field not in
`__ignore_fields__ = ["nodes", "run_uuid", "remote_dir"]` (line 27). -/
def SuiteConfig.raw (c : SuiteConfig) : List (String × PyVal) :=
  c.fields.filter
    (fun kv => !(["nodes", "run_uuid", "remote_dir"].contains kv.1))

/-- `DataSource` (lines 55-68): a six-field composite key; every field
is an optional string. -/
structure DataSource where
  suite_id : Option String
  job_id : Option String
  node_id : Option String
  dev : Option String
  sensor : Option String
  tag : Option String
  deriving DecidableEq, Repr

/-- A `DataSource` attribute dict: the six optional-string fields. -/
abbrev SDict := List (String × Option String)

/-- `d[k] = v` on a `DataSource` attribute dict. -/
def sdictSet : SDict → String → Option String → SDict
  | [], key, v => [(key, v)]
  | (k, w) :: rest, key, v =>
      if k = key then (k, v) :: rest else (k, w) :: sdictSet rest key v

/-- `self.__dict__.copy()` for a `DataSource`, in field order. -/
def DataSource.toDict (ds : DataSource) : SDict :=
  [("suite_id", ds.suite_id), ("job_id", ds.job_id),
   ("node_id", ds.node_id), ("dev", ds.dev),
   ("sensor", ds.sensor), ("tag", ds.tag)]

/-- `dct.update(kwargs)`: store each keyword pair in turn. -/
def sdictUpdate (d : SDict) (kwargs : SDict) : SDict :=
  kwargs.foldl (fun acc kv => sdictSet acc kv.1 kv.2) d

/-- `DataSource(**dct)`: the constructor reads each of the six
keyword arguments from the dict (all six are present whenever the
dict derives from an existing instance). -/
def DataSource.ofDict (d : SDict) : Option DataSource := do
  let s ← d.lookup "suite_id"
  let j ← d.lookup "job_id"
  let n ← d.lookup "node_id"
  let de ← d.lookup "dev"
  let se ← d.lookup "sensor"
  let t ← d.lookup "tag"
  return { suite_id := s, job_id := j, node_id := n,
           dev := de, sensor := se, tag := t }

/-- The keyword arguments of one `DataSource.__call__` invocation:
each of the six fields may be supplied (with an optional-string value)
or absent. -/
structure DSKwargs where
  suite_id : Option (Option String) := none
  job_id : Option (Option String) := none
  node_id : Option (Option String) := none
  dev : Option (Option String) := none
  sensor : Option (Option String) := none
  tag : Option (Option String) := none
  deriving DecidableEq, Repr

/-- The keyword arguments rendered as the dict passed to `update`. -/
def DSKwargs.toList (kw : DSKwargs) : SDict :=
  (match kw.suite_id with | some v => [("suite_id", v)] | none => []) ++
  (match kw.job_id with | some v => [("job_id", v)] | none => []) ++
  (match kw.node_id with | some v => [("node_id", v)] | none => []) ++
  (match kw.dev with | some v => [("dev", v)] | none => []) ++
  (match kw.sensor with | some v => [("sensor", v)] | none => []) ++
  (match kw.tag with | some v => [("tag", v)] | none => [])

/-- `DataSource.__call__` (lines 70-73): copy the attribute dict,
update it with the keyword arguments, and build a fresh instance from
the result; the receiver itself is never written to. -/
def DataSource.call (ds : DataSource) (kw : DSKwargs) : Option DataSource :=
  DataSource.ofDict (sdictUpdate ds.toDict kw.toList)

/-- Python `str(x)` on an optional-string attribute as performed by
`str.format`: `None` prints as the token `"None"`. -/
def pyStr : Option String → String
  | none => "None"
  | some s => s

/-- `DataSource.__str__` (lines 75-76). -/
def DataSource.str (ds : DataSource) : String :=
  pyStr ds.suite_id ++ "." ++ pyStr ds.job_id ++ "/" ++
  pyStr ds.node_id ++ "/" ++ pyStr ds.dev ++ "." ++
  pyStr ds.sensor ++ "." ++ pyStr ds.tag

/-- A configuration value held by `Config._dct`: an opaque scalar or a
nested block (a Python `dict`, which attribute lookup wraps back into
a `Config`). -/
inductive CVal where
  | prim : String → CVal
  | block : List (String × CVal) → CVal

/-- `Config.__getattr__` (config.py lines 57-66), as one lookup step:
a name resolves inside a block through `_dct` (a missing key raises
`AttributeError`, modelled `none`); attribute access on a scalar value
fails likewise. -/
def cfgAttr : CVal → String → Option CVal
  | CVal.prim _, _ => none
  | CVal.block entries, name => entries.lookup name

/-- Python `path.split("/", 1)` on the character list of a path: the
part before the first `/`, and, when a slash occurs, the remainder
after it (`none` when the path holds no slash). -/
def splitOnce : List Char → List Char × Option (List Char)
  | [] => ([], none)
  | c :: cs =>
      if c = '/' then ([], some cs)
      else
        let p := splitOnce cs
        (c :: p.1, p.2)

/-- `Config.get(path, default)` (config.py lines 41-55), translated
verbatim as the `while path:` loop over the character list of the
path: while the remaining path is nonempty, peel `path.split("/", 1)`
and resolve the name with `getattr`, returning the default on the
first failure; the loop exits as soon as the remaining path becomes
empty, so a trailing slash leaves no further segment to visit. -/
def cfgWhile (curr : CVal) (path : List Char) (dflt : CVal) : CVal :=
  if hp : path = [] then curr
  else
    match hv : cfgAttr curr (String.mk (splitOnce path).1) with
    | none => dflt
    | some v =>
        match hr : (splitOnce path).2 with
        | none => v
        | some r => cfgWhile v r dflt
termination_by path.length
decreasing_by
  clear hv hp
  induction path generalizing r with
  | nil => simp [splitOnce] at hr
  | cons c cs ih =>
      by_cases hc : c = '/'
      · simp [splitOnce, hc] at hr
        subst hr
        simp
      · simp [splitOnce, hc] at hr
        exact Nat.lt_succ_of_lt (ih r hr)

/-- The segments the `while` loop of `Config.get` visits, left to
right: the first `split("/", 1)` name, then the segments of the
remainder; when the remainder is empty (last segment, or a slash at
the very end) no further segment follows. -/
def loopSegments (path : List Char) : List String :=
  if hp : path = [] then []
  else
    match hr : (splitOnce path).2 with
    | none => [String.mk (splitOnce path).1]
    | some r => String.mk (splitOnce path).1 :: loopSegments r
termination_by path.length
decreasing_by
  clear hp
  induction path generalizing r with
  | nil => simp [splitOnce] at hr
  | cons c cs ih =>
      by_cases hc : c = '/'
      · simp [splitOnce, hc] at hr
        subst hr
        simp
      · simp [splitOnce, hc] at hr
        exact Nat.lt_succ_of_lt (ih r hr)

/-- `Config.get` entry point: run the loop on the path's characters,
starting from the configuration block itself. -/
def Config.get (dct : List (String × CVal)) (path : String)
    (dflt : CVal) : CVal :=
  cfgWhile (CVal.block dct) path.toList dflt

/-- The `/`-separated segments of a path string, as the lookup loop
visits them; the empty path has none. -/
def pathSegments (path : String) : List String :=
  loopSegments path.toList

/-- Left-to-right resolution of a segment list by iterated field
lookup: `some` when every segment resolves, `none` otherwise. -/
def resolveSegs : CVal → List String → Option CVal
  | curr, [] => some curr
  | curr, name :: rest =>
      match cfgAttr curr name with
      | some v => resolveSegs v rest
      | none => none

/-- A floating-point sample: a finite rational or one of the
non-finite IEEE values. -/
inductive FSample where
  | fin : ℚ → FSample
  | nan : FSample
  | inf : FSample
  | ninf : FSample
  deriving DecidableEq, Repr

/-- Finiteness of a sample. -/
def FSample.isFinite : FSample → Bool
  | FSample.fin _ => true
  | _ => false

/-- The numeric value of a finite sample. -/
def FSample.val : FSample → ℚ
  | FSample.fin q => q
  | _ => 0

/-- The reduction error taxonomy of spec section 7:
`EmptyInputError` and `InvalidSampleError`. -/
inductive ReduceError where
  | emptyInput : ReduceError
  | invalidSample : ReduceError
  deriving DecidableEq, Repr

/-- The base statistics computed by the reduction. -/
structure CalcStats where
  perc_50 : ℚ
  perc_90 : ℚ
  perc_95 : ℚ
  perc_99 : ℚ
  min : ℚ
  max : ℚ
  deriving DecidableEq, Repr

/-- Modelled from the spec: the percentile rank index over a sorted
sample of length `n` (spec sections 4.2 and 9 leave the exact
convention to the implementer; this development fixes the nearest-rank
index `q * (n - 1) / 100`, rounded down). -/
def percentileIdx (n q : Nat) : Nat := q * (n - 1) / 100

/-- Modelled from the spec: the `q`-th percentile read off the sorted
sample. -/
def percentile (sorted : List ℚ) (q : Nat) : ℚ :=
  sorted.getD (percentileIdx sorted.length q) 0

/-- Modelled from the spec: the statistical reduction of section 4.2
(the reduction module is not among the sources).  An empty input fails
with `EmptyInputError`; an input containing a non-finite sample fails
with `InvalidSampleError`; otherwise the percentiles and bounds are
read off the sorted sample and no error value ever reaches the
statistics. -/
def calcStatProps (data : List FSample) : Except ReduceError CalcStats :=
  if data.isEmpty then Except.error ReduceError.emptyInput
  else if !(data.all FSample.isFinite) then
    Except.error ReduceError.invalidSample
  else
    let s := (data.map FSample.val).mergeSort (fun a b => a ≤ b)
    Except.ok { perc_50 := percentile s 50, perc_90 := percentile s 90,
                perc_95 := percentile s 95, perc_99 := percentile s 99,
                min := s.getD 0 0, max := s.getD (s.length - 1) 0 }

/-! ## Helper lemmas -/

/-- In a `≤`-sorted list of rationals, entries at nondecreasing
positions within bounds are nondecreasing. -/
theorem sorted_getD_mono {s : List ℚ} (hs : s.Sorted (· ≤ ·))
    {i j : Nat} (hij : i ≤ j) (hj : j < s.length) :
    s.getD i 0 ≤ s.getD j 0 := by
  have hi : i < s.length := lt_of_le_of_lt hij hj
  rw [List.getD_eq_getElem?_getD, List.getD_eq_getElem?_getD,
    List.getElem?_eq_getElem hi, List.getElem?_eq_getElem hj]
  exact hs.rel_get_of_le (a := ⟨i, hi⟩) (b := ⟨j, hj⟩) hij

/-- The percentile rank index is monotone in the requested quantile. -/
theorem percentileIdx_mono (n : Nat) {q1 q2 : Nat} (h : q1 ≤ q2) :
    percentileIdx n q1 ≤ percentileIdx n q2 :=
  Nat.div_le_div_right (Nat.mul_le_mul_right (n - 1) h)

/-- For quantiles up to 100 the rank index stays within the sample. -/
theorem percentileIdx_le (n : Nat) {q : Nat} (hq : q ≤ 100) :
    percentileIdx n q ≤ n - 1 := by
  have h1 : q * (n - 1) / 100 ≤ 100 * (n - 1) / 100 :=
    Nat.div_le_div_right (Nat.mul_le_mul_right (n - 1) hq)
  have h2 : 100 * (n - 1) / 100 = n - 1 :=
    Nat.mul_div_cancel_left (n - 1) (by norm_num)
  exact h2 ▸ h1

/-- The early-default `while` loop of `Config.get` computes exactly
the option-valued resolution of the segments it visits, with a final
default. -/
theorem cfgWhile_eq_resolve (path : List Char) (curr dflt : CVal) :
    cfgWhile curr path dflt =
      (resolveSegs curr (loopSegments path)).getD dflt := by
  induction curr, path, dflt using cfgWhile.induct with
  | case1 curr dflt =>
      simp [cfgWhile, loopSegments, resolveSegs]
  | case2 curr path dflt hp hv =>
      rw [cfgWhile, loopSegments, dif_neg hp, dif_neg hp]
      repeat' split
      all_goals simp_all [resolveSegs]
  | case3 curr path dflt hp v hv hr =>
      rw [cfgWhile, loopSegments, dif_neg hp, dif_neg hp]
      repeat' split
      all_goals simp_all [resolveSegs]
  | case4 curr path dflt hp v hv r hr ih =>
      rw [cfgWhile, loopSegments, dif_neg hp, dif_neg hp]
      repeat' split
      all_goals simp_all [resolveSegs]

unseal loopSegments cfgWhile in
/-- The visited segments on sample paths: plain paths split on every
slash, the empty path has no segment, and a trailing slash adds none
(the loop exits on the empty remainder), so `get("a/")` returns the
value stored at `"a"`, not the default. -/
theorem pathSegments_samples :
    pathSegments "a/b/c" = ["a", "b", "c"] ∧
    pathSegments "a" = ["a"] ∧
    pathSegments "" = [] ∧
    pathSegments "a/" = ["a"] ∧
    pathSegments "a//b" = ["a", "", "b"] ∧
    Config.get [("a", CVal.prim "v")] "a/" (CVal.prim "dflt") =
      CVal.prim "v" :=
  ⟨rfl, rfl, rfl, rfl, rfl, rfl⟩

/-! ## Claim theorems -/

/-- C10: immediately after `StatProps.__init__`,
`NormStatProps.__init__` or `HistoStatProps.__init__`, every statistic
attribute is `None`; only the data reference (and, for the histogram
variant, `second_axis_size`) is stored, and no statistic is computed. -/
theorem statprops_init_all_none (data : List ℚ) (sas : Nat) :
    (dictGet (mkStatProps data) "perc_50" = some AVal.noneV ∧
     dictGet (mkStatProps data) "perc_90" = some AVal.noneV ∧
     dictGet (mkStatProps data) "perc_95" = some AVal.noneV ∧
     dictGet (mkStatProps data) "perc_99" = some AVal.noneV ∧
     dictGet (mkStatProps data) "min" = some AVal.noneV ∧
     dictGet (mkStatProps data) "max" = some AVal.noneV ∧
     dictGet (mkStatProps data) "bins_mids" = some AVal.noneV ∧
     dictGet (mkStatProps data) "bins_populations" = some AVal.noneV ∧
     dictGet (mkStatProps data) "data" = some (AVal.arr data)) ∧
    (dictGet (mkNormStatProps data) "perc_50" = some AVal.noneV ∧
     dictGet (mkNormStatProps data) "perc_90" = some AVal.noneV ∧
     dictGet (mkNormStatProps data) "perc_95" = some AVal.noneV ∧
     dictGet (mkNormStatProps data) "perc_99" = some AVal.noneV ∧
     dictGet (mkNormStatProps data) "min" = some AVal.noneV ∧
     dictGet (mkNormStatProps data) "max" = some AVal.noneV ∧
     dictGet (mkNormStatProps data) "bins_mids" = some AVal.noneV ∧
     dictGet (mkNormStatProps data) "bins_populations" = some AVal.noneV ∧
     dictGet (mkNormStatProps data) "average" = some AVal.noneV ∧
     dictGet (mkNormStatProps data) "deviation" = some AVal.noneV ∧
     dictGet (mkNormStatProps data) "confidence" = some AVal.noneV ∧
     dictGet (mkNormStatProps data) "confidence_level" = some AVal.noneV ∧
     dictGet (mkNormStatProps data) "normtest" = some AVal.noneV ∧
     dictGet (mkNormStatProps data) "skew" = some AVal.noneV ∧
     dictGet (mkNormStatProps data) "kurt" = some AVal.noneV ∧
     dictGet (mkNormStatProps data) "data" = some (AVal.arr data)) ∧
    (dictGet (mkHistoStatProps data sas) "perc_50" = some AVal.noneV ∧
     dictGet (mkHistoStatProps data sas) "perc_90" = some AVal.noneV ∧
     dictGet (mkHistoStatProps data sas) "perc_95" = some AVal.noneV ∧
     dictGet (mkHistoStatProps data sas) "perc_99" = some AVal.noneV ∧
     dictGet (mkHistoStatProps data sas) "min" = some AVal.noneV ∧
     dictGet (mkHistoStatProps data sas) "max" = some AVal.noneV ∧
     dictGet (mkHistoStatProps data sas) "bins_mids" = some AVal.noneV ∧
     dictGet (mkHistoStatProps data sas) "bins_populations" = some AVal.noneV ∧
     dictGet (mkHistoStatProps data sas) "second_axis_size" = some (AVal.int sas) ∧
     dictGet (mkHistoStatProps data sas) "data" = some (AVal.arr data)) :=
  ⟨⟨rfl, rfl, rfl, rfl, rfl, rfl, rfl, rfl, rfl⟩,
   ⟨rfl, rfl, rfl, rfl, rfl, rfl, rfl, rfl, rfl, rfl, rfl, rfl, rfl, rfl,
    rfl, rfl⟩,
   ⟨rfl, rfl, rfl, rfl, rfl, rfl, rfl, rfl, rfl, rfl⟩⟩

/-- C1: the round-trip claim fails on the normal variant:
`NormStatProps.raw` reads the key `"nortest"`, which no object ever
has (the attribute is `normtest`), so `raw` raises `KeyError` on every
populated `NormStatProps`.  Evaluated here on a concrete populated
instance: the base-class serialization of the very same object
succeeds, while the normal variant's `raw` fails, so
`fromraw(raw(stat_props))` cannot succeed for it. -/
theorem normstat_roundtrip_raises :
    (StatProps.raw (populatedNorm 1 2 3 4 0 5 [1, 2] [3, 4] 2 1 0
        (95 / 100) 0 0 (1 / 2) (1 / 3) [1, 2, 3])).isSome = true ∧
    NormStatProps.raw (populatedNorm 1 2 3 4 0 5 [1, 2] [3, 4] 2 1 0
        (95 / 100) 0 0 (1 / 2) (1 / 3) [1, 2, 3]) = none :=
  ⟨rfl, rfl⟩

/-- C4: on a concrete populated base `StatProps`, `raw()` excludes the
`data` array and carries the bins as plain lists; but on a populated
`NormStatProps` the `raw()` that should persist the normality-test
result as a `(statistic, pvalue)` pair raises `KeyError` instead
(it reads the misspelled key `"nortest"`). -/
theorem statprops_raw_form_and_normtest_failure :
    StatProps.raw (populatedStat 5 6 7 8 1 9 [10, 20] [3, 4] [1, 2]) =
      some [("perc_99", AVal.num 8), ("perc_95", AVal.num 7),
            ("perc_90", AVal.num 6), ("perc_50", AVal.num 5),
            ("min", AVal.num 1), ("max", AVal.num 9),
            ("bins_populations", AVal.plist [3, 4]),
            ("bins_mids", AVal.plist [10, 20])] ∧
    (StatProps.raw (populatedStat 5 6 7 8 1 9 [10, 20] [3, 4] [1, 2])).bind
      (fun d => dictGet d "data") = none ∧
    NormStatProps.raw (populatedNorm 5 6 7 8 1 9 [10, 20] [3, 4] 3 2 1
        (9 / 10) 0 0 (2 / 3) (1 / 5) [1, 2]) = none :=
  ⟨rfl, rfl, rfl⟩

/-- C7: the string form of a `DataSource` is
`"{suite_id}.{job_id}/{node_id}/{dev}.{sensor}.{tag}"` with each field
substituted by its value, and a `None` field renders as the literal
token `"None"`. -/
theorem datasource_str_form (ds : DataSource) :
    DataSource.str ds =
      pyStr ds.suite_id ++ "." ++ pyStr ds.job_id ++ "/" ++
      pyStr ds.node_id ++ "/" ++ pyStr ds.dev ++ "." ++
      pyStr ds.sensor ++ "." ++ pyStr ds.tag ∧
    pyStr none = "None" ∧ ∀ s : String, pyStr (some s) = s :=
  ⟨rfl, rfl, fun _ => rfl⟩

/-- C8: the serialized form of a `SuiteConfig` contains exactly its
fields other than `nodes`, `run_uuid` and `remote_dir`; in particular
`nodes_ids` (the node ids of its nodes) and
`storage_id = "{test_type}_{idx}"` are included. -/
theorem suiteconfig_raw_contents (tt : String)
    (ps : List (String × String)) (uuid : String) (nodes : List Node)
    (rdir : String) (idx : Nat) :
    (mkSuiteConfig tt ps uuid nodes rdir idx).raw =
      [("test_type", PyVal.str tt), ("params", PyVal.dict ps),
       ("nodes_ids", PyVal.strList (nodes.map Node.node_id)),
       ("storage_id", PyVal.str (tt ++ "_" ++ toString idx))] :=
  rfl

/-- C2: two `SuiteConfig` values compare equal exactly when their
`test_type`, `params` (as Python dicts) and the set of `nodes_ids`
match, independently of the order of `nodes_ids`; and changing
`run_uuid` or `remote_dir` on either side never changes the verdict. -/
theorem suiteconfig_eq_iff_identity (c o : SuiteConfig) :
    (SuiteConfig.eq c o = true ↔
      (c.test_type = o.test_type ∧ pdictEq c.params o.params = true ∧
        ∀ x : String, x ∈ c.nodes_ids ↔ x ∈ o.nodes_ids)) ∧
    ∀ u r u2 r2 : String,
      SuiteConfig.eq { c with run_uuid := u, remote_dir := r }
        { o with run_uuid := u2, remote_dir := r2 } =
      SuiteConfig.eq c o := by
  constructor
  · unfold SuiteConfig.eq setEq
    simp only [Bool.and_eq_true, beq_iff_eq, List.all_eq_true,
      List.elem_iff, decide_eq_true_eq]
    constructor
    · rintro ⟨⟨h1, h2⟩, h3, h4⟩
      exact ⟨h1, h2, fun x => ⟨fun hx => h3 x hx, fun hx => h4 x hx⟩⟩
    · rintro ⟨h1, h2, h3⟩
      exact ⟨⟨h1, h2⟩, fun x hx => (h3 x).1 hx, fun x hx => (h3 x).2 hx⟩
  · intro u r u2 r2
    rfl

/-- C3: `DataSource.__call__` builds a new `DataSource` in which each
supplied keyword takes the overriding value and every other field
keeps the original's value (the embedding is purely functional, so the
receiver is untouched by construction). -/
theorem datasource_call_overrides (ds : DataSource) (kw : DSKwargs) :
    DataSource.call ds kw = some
      { suite_id := kw.suite_id.getD ds.suite_id,
        job_id := kw.job_id.getD ds.job_id,
        node_id := kw.node_id.getD ds.node_id,
        dev := kw.dev.getD ds.dev,
        sensor := kw.sensor.getD ds.sensor,
        tag := kw.tag.getD ds.tag } := by
  obtain ⟨a, b, c, d, e, f⟩ := kw
  cases a <;> cases b <;> cases c <;> cases d <;> cases e <;> cases f <;> rfl

/-- C9: `Config.get(path, default)` resolves the `/`-separated
segments left to right by iterated field lookup, returning the
resolved value when every segment resolves and the default as soon as
any segment fails to resolve. -/
theorem config_get_resolves_path (dct : List (String × CVal))
    (path : String) (dflt : CVal) :
    Config.get dct path dflt =
      (resolveSegs (CVal.block dct) (pathSegments path)).getD dflt :=
  cfgWhile_eq_resolve path.toList (CVal.block dct) dflt

/-- C6: the reduction of an empty array fails with `EmptyInputError`,
and the reduction of an array containing a non-finite sample fails
with `InvalidSampleError`; in both cases the result is an error, so no
statistics object with contaminated percentiles is produced. -/
theorem calc_stat_props_error_conditions :
    calcStatProps [] = Except.error ReduceError.emptyInput ∧
    ∀ (data : List FSample) (x : FSample), x ∈ data →
      x.isFinite = false →
      calcStatProps data = Except.error ReduceError.invalidSample := by
  refine ⟨rfl, ?_⟩
  intro data x hmem hfin
  have hne : data.isEmpty = false := by
    cases data with
    | nil => cases hmem
    | cons a l => rfl
  have hall : data.all FSample.isFinite = false := by
    rw [List.all_eq_false]
    exact ⟨x, hmem, by simp [hfin]⟩
  simp [calcStatProps, hne, hall]

/-- Witness for C6: the error conditions evaluated at the concrete
input `[NaN, 1.0]`. -/
theorem calc_stat_props_error_conditions_witness :
    (FSample.nan ∈ [FSample.nan, FSample.fin 1] ∧
      FSample.isFinite FSample.nan = false) ∧
    calcStatProps [FSample.nan, FSample.fin 1] =
      Except.error ReduceError.invalidSample :=
  ⟨⟨by decide, by decide⟩,
   calc_stat_props_error_conditions.2 [FSample.nan, FSample.fin 1]
     FSample.nan (by decide) (by decide)⟩

/-- C5: on every non-empty, all-finite, all-distinct sample the
reduction succeeds and its statistics satisfy
`min ≤ perc_50 ≤ perc_90 ≤ perc_95 ≤ perc_99 ≤ max`. -/
theorem calc_stat_props_percentile_order (data : List FSample)
    (hne : data ≠ []) (hfin : ∀ x ∈ data, x.isFinite = true)
    (_hdist : data.Pairwise (· ≠ ·)) :
    ∃ st : CalcStats, calcStatProps data = Except.ok st ∧
      st.min ≤ st.perc_50 ∧ st.perc_50 ≤ st.perc_90 ∧
      st.perc_90 ≤ st.perc_95 ∧ st.perc_95 ≤ st.perc_99 ∧
      st.perc_99 ≤ st.max := by
  have hemp : data.isEmpty = false := by
    cases data with
    | nil => exact absurd rfl hne
    | cons a l => rfl
  have hall : data.all FSample.isFinite = true := List.all_eq_true.mpr hfin
  set s := (data.map FSample.val).mergeSort (fun a b => a ≤ b) with hs_def
  have hsorted : s.Sorted (· ≤ ·) := List.sorted_mergeSort' _
  have hlen : s.length = data.length := by
    rw [hs_def, (List.mergeSort_perm _ _).length_eq, List.length_map]
  have hnz : 0 < s.length := by
    rw [hlen, List.length_pos]
    exact hne
  have hlast : s.length - 1 < s.length := Nat.sub_lt hnz Nat.one_pos
  have hidx : ∀ q : Nat, q ≤ 100 → percentileIdx s.length q < s.length :=
    fun q hq => lt_of_le_of_lt (percentileIdx_le s.length hq) hlast
  have hcalc : calcStatProps data = Except.ok
      { perc_50 := percentile s 50, perc_90 := percentile s 90,
        perc_95 := percentile s 95, perc_99 := percentile s 99,
        min := s.getD 0 0, max := s.getD (s.length - 1) 0 } := by
    simp [calcStatProps, hemp, hall, hs_def]
  refine ⟨_, hcalc, ?_, ?_, ?_, ?_, ?_⟩
  · exact sorted_getD_mono hsorted (Nat.zero_le _) (hidx 50 (by norm_num))
  · exact sorted_getD_mono hsorted (percentileIdx_mono s.length (by norm_num))
      (hidx 90 (by norm_num))
  · exact sorted_getD_mono hsorted (percentileIdx_mono s.length (by norm_num))
      (hidx 95 (by norm_num))
  · exact sorted_getD_mono hsorted (percentileIdx_mono s.length (by norm_num))
      (hidx 99 (by norm_num))
  · exact sorted_getD_mono hsorted (percentileIdx_le s.length (by norm_num))
      hlast

/-- Witness for C5: the ordering evaluated at the concrete distinct
sample `[3, 1, 2]`. -/
theorem calc_stat_props_percentile_order_witness :
    ([FSample.fin 3, FSample.fin 1, FSample.fin 2] ≠ ([] : List FSample)) ∧
    ∃ st : CalcStats,
      calcStatProps [FSample.fin 3, FSample.fin 1, FSample.fin 2] =
        Except.ok st ∧
      st.min ≤ st.perc_50 ∧ st.perc_50 ≤ st.perc_90 ∧
      st.perc_90 ≤ st.perc_95 ∧ st.perc_95 ≤ st.perc_99 ∧
      st.perc_99 ≤ st.max :=
  ⟨by decide,
   calc_stat_props_percentile_order
     [FSample.fin 3, FSample.fin 1, FSample.fin 2]
     (by decide) (by decide) (by decide)⟩

end DiskPerf
